import Mathlib

/-!
Shallow embedding of the LyraTutorAI Discord voice pipeline.

Buffers of 16-bit little-endian PCM are modelled at the sample level: a
`Buffer` of byte length `2*n` becomes a `List Int` of length `n`, each
element being the value `readInt16LE` would return (hence an integer in
[-32768, 32767]).  JavaScript floating-point arithmetic on sample values is
embedded as exact rational arithmetic (`ℚ`); `Math.floor` becomes
`Int.floor` and `Math.round x` becomes `⌊x + 1/2⌋`, which is exactly
JavaScript round-half-up semantics.  `Math.sqrt` comparisons
(`sqrt m < t` with `m ≥ 0`, `t > 0`) are embedded as the equivalent exact
comparison `m < t^2` on the radicand.
-/

namespace DiscordAudioProcessor

/-- Embeds `stereoToMono` (audio-processor v2, and identically v1): walks the
interleaved stereo buffer pair by pair and writes
`Math.floor((left + right) / 2)` for each pair.  JavaScript `/` is real
division and `Math.floor` rounds toward -∞, so the written value is the
floor division `Int.fdiv (left + right) 2`. -/
def stereoToMono : List Int → List Int
  | left :: right :: rest => Int.fdiv (left + right) 2 :: stereoToMono rest
  | _ => []

/-- Embeds `monoToStereo` (audio-processor v2, and identically v1): writes each
mono sample to both channel slots, producing the interleaved stereo buffer. -/
def monoToStereo : List Int → List Int
  | sample :: rest => sample :: sample :: monoToStereo rest
  | [] => []

/-- Embeds the body of the resampling loop shared verbatim by v1
(`audio-processor.ts`, no clamp) and v2 (`audio-processor-v2.ts`, result then
clamped): `inputIndex = i / ratio` with `ratio = outputRate / inputRate`,
i.e. `i * inputRate / outputRate`; floor index, ceil index capped at
`inputSamples - 1`, fractional part, then linear interpolation rounded with
`Math.round`.  Out-of-range reads cannot occur for indices produced by the
loop; `getD _ 0` makes the read total. -/
def interpolateAt (input : List Int) (inputRate outputRate : Nat) (i : Nat) : Int :=
  let inputSamples := input.length
  let inputIndex : ℚ := (i : ℚ) * (inputRate : ℚ) / (outputRate : ℚ)
  let inputIndexFloor : Nat := Int.toNat ⌊inputIndex⌋
  let inputIndexCeil : Nat := min (inputIndexFloor + 1) (inputSamples - 1)
  let fraction : ℚ := inputIndex - (inputIndexFloor : ℚ)
  let sample1 := input.getD inputIndexFloor 0
  let sample2 := input.getD inputIndexCeil 0
  ⌊(sample1 : ℚ) + ((sample2 : ℚ) - (sample1 : ℚ)) * fraction + 1/2⌋

/-- Embeds `resample` of audio-processor v1 (`part_004`, lines 110-135): output
length `Math.floor(inputSamples * outputRate / inputRate)`, linear
interpolation, the interpolated value written WITHOUT a clamp.  v1 also has no
same-rate shortcut. -/
def resampleV1 (input : List Int) (inputRate outputRate : Nat) : List Int :=
  (List.range (input.length * outputRate / inputRate)).map
    (interpolateAt input inputRate outputRate)

/-- Embeds `Math.max(-32768, Math.min(32767, interpolated))` from
audio-processor v2. -/
def clamp16 (x : Int) : Int := max (-32768) (min 32767 x)

/-- Embeds `resample` of audio-processor v2 (`part_005`, lines 202-239): the
same-rate shortcut returns the input buffer unchanged; otherwise the same
loop as v1 with the interpolated value clamped to [-32768, 32767] before the
write. -/
def resample (input : List Int) (inputRate outputRate : Nat) : List Int :=
  if inputRate = outputRate then input
  else
    (List.range (input.length * outputRate / inputRate)).map
      (fun i => clamp16 (interpolateAt input inputRate outputRate i))

/-- Result record of `validatePCM16`.  The `rms` field of the source is a
JavaScript number that is `NaN` exactly when the buffer is empty
(`sqrt(0/0)`); we embed it as the mean square (the radicand) wrapped in
`Option`, with `none` standing for the `NaN` outcome. -/
structure PCMValidation where
  valid : Bool
  min : Int
  max : Int
  rmsSq : Option ℚ
  deriving DecidableEq, Repr

/-- Embeds `validatePCM16` (`part_005`, lines 132-149): running min (seeded
32767), running max (seeded -32768), sum of squares; `rms = sqrt(sum/n)` is
`NaN` iff `n = 0`; `valid = min ≥ -32768 && max ≤ 32767 && !isNaN(rms)`. -/
def validatePCM16 (samples : List Int) : PCMValidation :=
  let mn := samples.foldl (fun m s => Min.min m s) 32767
  let mx := samples.foldl (fun m s => Max.max m s) (-32768)
  let sum : ℚ := samples.foldl (fun acc s => acc + (s : ℚ) * (s : ℚ)) 0
  let rmsSq : Option ℚ :=
    if samples.length = 0 then none else some (sum / (samples.length : ℚ))
  { valid := decide (-32768 ≤ mn) && decide (mx ≤ 32767) && rmsSq.isSome
    min := mn
    max := mx
    rmsSq := rmsSq }

/-- Embeds `convertDiscordToGemini` (v2): stereo→mono, then resample 48kHz to
16kHz.  The final base64 encoding is a byte-transparent re-encoding and is
not modelled. -/
def convertDiscordToGemini (discordBuffer : List Int) : List Int :=
  resample (stereoToMono discordBuffer) 48000 16000

/-- Embeds `convertGeminiToDiscord` (v2): resample 24kHz to 48kHz, then
mono→stereo. -/
def convertGeminiToDiscord (geminiAudio : List Int) : List Int :=
  monoToStereo (resample geminiAudio 24000 48000)

end DiscordAudioProcessor

namespace VoiceConnectionManager

open DiscordAudioProcessor

/-- Constant `MIN_AUDIO_DURATION_MS = 500` from `voice-connection-manager-v2.ts`. -/
def MIN_AUDIO_DURATION_MS : ℚ := 500

/-- Constant `MIN_RMS_THRESHOLD = 400` from `voice-connection-manager-v2.ts`. -/
def MIN_RMS_THRESHOLD : ℚ := 400

/-- Embeds the per-user capture record
`{ chunks: Buffer[], timer, totalSamples }` of `userAudioBuffers`.  Each chunk
is a decoded 48kHz interleaved-stereo PCM buffer (flat sample list);
`totalSamples` is the stereo-frame count the decoder listener accumulated
(`chunk.length / 4` bytes per frame, i.e. half the flat sample count).  The
timer handle carries no data and is not modelled. -/
structure UserAudioBuffer where
  chunks : List (List Int)
  totalSamples : Nat

/-- Embeds the summation loop of `calculateRMS` (lines 424-436): for each
interleaved pair, `avg = (left + right) / 2` (exact in JS doubles for 16-bit
samples) and `sum += avg * avg`. -/
def rmsSumSq : List Int → ℚ
  | left :: right :: rest =>
      (((left : ℚ) + (right : ℚ)) / 2) * (((left : ℚ) + (right : ℚ)) / 2) + rmsSumSq rest
  | _ => 0

/-- Embeds the square of `calculateRMS` (lines 424-436): the source returns
`Math.sqrt(sum / samples)` with `samples = buffer.length / 4` bytes, i.e. the
number of interleaved pairs (half the flat sample count).  Since
`sqrt x < t ↔ x < t^2` for `x ≥ 0 < t`, the gate below compares this exact
mean square against the squared threshold. -/
def calculateRMSSq (buffer : List Int) : ℚ :=
  rmsSumSq buffer / ((buffer.length / 2 : Nat) : ℚ)

/-- Embeds `durationMs = (userBuffer.totalSamples / 48000) * 1000`
(line 388). -/
def durationMs (buf : UserAudioBuffer) : ℚ :=
  (buf.totalSamples : ℚ) / 48000 * 1000

/-- Embeds `processFinalAudio` (lines 382-422) as a function from the
finalized capture buffer to the utterance forwarded to the AI-service
boundary (`none` = discarded, nothing forwarded; `some u` = exactly `u`
forwarded via `sendRealtimeInput`).  Guard order follows the source: missing
or empty chunk list, then the duration gate, then the RMS gate, then the
conversion and single forward. -/
def processFinalAudio (buf : UserAudioBuffer) : Option (List Int) :=
  if buf.chunks = [] then none
  else
    let fullBuffer := buf.chunks.flatten
    if durationMs buf < MIN_AUDIO_DURATION_MS then none
    else if calculateRMSSq fullBuffer < MIN_RMS_THRESHOLD ^ 2 then none
    else some (convertDiscordToGemini fullBuffer)

/-- State of the playback path of `VoiceConnectionManager` (v2): the pending
`audioQueue` of raw Gemini fragments, the `isPlaying` and
`responseInProgress` flags, and `emitted` — the ordered list of PCM buffers
handed to `audioPlayer.play` so far (the observable outbound stream). -/
structure SchedulerState where
  audioQueue : List (List Int)
  isPlaying : Bool
  responseInProgress : Bool
  emitted : List (List Int)
  deriving DecidableEq, Repr

/-- Initial playback state of a freshly constructed manager. -/
def initScheduler : SchedulerState :=
  { audioQueue := [], isPlaying := false, responseInProgress := false, emitted := [] }

/-- Embeds `playNextAudio` (lines 455-514): returns unchanged when already
playing or the queue is empty (the player is assumed present while
connected); otherwise drains the whole queue front-to-back, converts each
fragment with `convertGeminiToDiscord`, concatenates, and plays the result
(recorded on `emitted`), with `isPlaying` set. -/
def playNextAudio (s : SchedulerState) : SchedulerState :=
  if s.isPlaying ∨ s.audioQueue = [] then s
  else
    { s with
      audioQueue := []
      isPlaying := true
      emitted := s.emitted ++ [(s.audioQueue.map convertGeminiToDiscord).flatten] }

/-- Embeds the `"audio"` listener (lines 66-74): append the fragment to
`audioQueue`; if not playing and at least `MIN_BUFFER_CHUNKS = 2` fragments
are queued, start `playNextAudio`. -/
def onAudio (data : List Int) (s : SchedulerState) : SchedulerState :=
  let s1 := { s with audioQueue := s.audioQueue ++ [data] }
  if ¬s1.isPlaying ∧ 2 ≤ s1.audioQueue.length then playNextAudio s1 else s1

/-- Embeds the player `stateChange`-to-idle handler (lines 271-276): clear
`isPlaying`, then call `playNextAudio`. -/
def onPlayerIdle (s : SchedulerState) : SchedulerState :=
  playNextAudio { s with isPlaying := false }

/-- Embeds `stopPlayback` (lines 437-453): clear `audioQueue`, stop the
player (whose idle transition re-enters `playNextAudio` on the now-empty
queue — a no-op), then reset `isPlaying` and `responseInProgress`.  Nothing
already emitted is affected and no generation counter exists in the source. -/
def stopPlayback (s : SchedulerState) : SchedulerState :=
  { s with audioQueue := [], isPlaying := false, responseInProgress := false }

/-- External events driving the playback path: a fragment arriving on the
`"audio"` event, the player going idle, and a `stopPlayback` cancellation. -/
inductive SchedulerEvent where
  | audio (data : List Int)
  | playerIdle
  | stop
  deriving DecidableEq, Repr

/-- One step of the playback path. -/
def schedStep (s : SchedulerState) : SchedulerEvent → SchedulerState
  | .audio d => onAudio d s
  | .playerIdle => onPlayerIdle s
  | .stop => stopPlayback s

/-- Run the playback path from the initial state over an event trace. -/
def runScheduler (evs : List SchedulerEvent) : SchedulerState :=
  evs.foldl schedStep initScheduler

/-- Fragments carried by a trace, in arrival order. -/
def arrivals : List SchedulerEvent → List (List Int)
  | [] => []
  | .audio d :: rest => d :: arrivals rest
  | _ :: rest => arrivals rest

/-- Observation function for stating playback properties: the PCM bytes
handed to the player so far, followed by the converted forms of the
fragments still queued — everything the state is committed to emit, in
order. -/
def observedOutput (s : SchedulerState) : List Int :=
  s.emitted.flatten ++ (s.audioQueue.map convertGeminiToDiscord).flatten

/-- One `functionCall` of a Gemini tool call.  JavaScript truthiness of
`functionCall.id` and of `args.message` conflates missing and empty string,
so both are modelled as `String` with `""` for absent/empty. -/
structure FunctionCall where
  id : String
  name : String
  message : String
  deriving DecidableEq, Repr

/-- Embeds a `LiveServerToolCall` payload: its list of function calls. -/
structure ToolCallMsg where
  functionCalls : List FunctionCall
  deriving DecidableEq, Repr

/-- One entry of `functionResponses` sent back through `sendToolResponse`:
the correlation id, the tool name, and the success/failure flag. -/
structure ToolResponse where
  id : String
  name : String
  success : Bool
  deriving DecidableEq, Repr

/-- Embeds `handleSendChatMessage` (lines 142-192) as the list of tool
responses actually sent back for one dispatched call.  `channelSendOk` models
whether `channel.send` succeeds; `respSendOk` models whether a
`sendToolResponse` call reaches the service (a throwing send emits nothing
and, on the success path, falls into the catch block whose failure response
is governed by the same oracle).  An absent/empty `args.message` is logged
and returns with NO response sent. -/
def handleSendChatMessage (channelSendOk respSendOk : Bool)
    (fc : FunctionCall) : List ToolResponse :=
  if fc.message = "" then []
  else if channelSendOk then
    if respSendOk then [{ id := fc.id, name := fc.name, success := true }] else []
  else
    if respSendOk then [{ id := fc.id, name := fc.name, success := false }] else []

/-- Embeds the `"toolcall"` listener (lines 122-137): iterate over
`toolCall.functionCalls` and dispatch only those with
`name === "send_chat_message"` and a truthy `id`; every other function call
is skipped with no response.  Returns the concatenated responses sent. -/
def onToolCall (channelSendOk respSendOk : Bool) (tc : ToolCallMsg) : List ToolResponse :=
  tc.functionCalls.flatMap fun fc =>
    if fc.name = "send_chat_message" ∧ fc.id ≠ "" then
      handleSendChatMessage channelSendOk respSendOk fc
    else []

/-- Observable side effects of `disconnect` (lines 516-544), in program
order. -/
inductive TeardownAction where
  | clearAudioQueue
  | cancelUserTimers
  | clearUserBuffers
  | closeAIConnection
  | stopAudioPlayer
  | destroyTransport
  deriving DecidableEq, Repr

/-- Embeds `disconnect` (lines 516-544) as its trace of teardown effects in
source order: clear `audioQueue` and reset flags; cancel every pending
capture debounce timer and clear `userAudioBuffers`; `geminiClient.disconnect()`
(the client field is always non-null); then `audioPlayer.stop()` and
`voiceConnection.destroy()`, each only if the handle exists. -/
def disconnectTrace (hasPlayer hasConnection : Bool) : List TeardownAction :=
  [TeardownAction.clearAudioQueue, TeardownAction.cancelUserTimers,
   TeardownAction.clearUserBuffers, TeardownAction.closeAIConnection]
  ++ (if hasPlayer then [TeardownAction.stopAudioPlayer] else [])
  ++ (if hasConnection then [TeardownAction.destroyTransport] else [])

end VoiceConnectionManager

namespace GenAILiveClient

/-- Connection status of `GenAILiveClient` (`genai-live-client.ts`, line 48). -/
inductive ClientStatus where
  | connected
  | disconnected
  | connecting
  deriving DecidableEq, Repr

/-- Embeds the mutable fields of `GenAILiveClient` touched by `connect`:
`_status`, `_session` (opaque handle), `_model`, `config` (opaque handle),
and `textBuffer`. -/
structure ClientState where
  status : ClientStatus
  session : Option Nat
  model : Option String
  config : Option Nat
  textBuffer : String
  deriving DecidableEq, Repr

/-- Embeds `connect` (lines 91-125).  If the status is already `connected` or
`connecting`, return `false` immediately with the state untouched.  Otherwise
set status to `connecting`, store `config` and `model`, clear `textBuffer`,
then attempt the session: `connectResult` models the outcome of
`client.live.connect` (`none` = the await throws).  On failure the status
falls back to `disconnected` (config/model stay overwritten) and `false` is
returned; on success the session is stored, the status becomes `connected`,
and `true` is returned. -/
def connect (m : String) (cfg : Nat) (connectResult : Option Nat)
    (s : ClientState) : Bool × ClientState :=
  if s.status = ClientStatus.connected ∨ s.status = ClientStatus.connecting then
    (false, s)
  else
    let s1 : ClientState :=
      { s with status := ClientStatus.connecting, config := some cfg,
               model := some m, textBuffer := "" }
    match connectResult with
    | none => (false, { s1 with status := ClientStatus.disconnected })
    | some sess =>
        (true, { s1 with session := some sess, status := ClientStatus.connected })

end GenAILiveClient

section AudioProofs

open DiscordAudioProcessor

/-- Any `getD _ 0` read from a buffer of 16-bit samples is within the 16-bit
signed range (out-of-bounds reads yield the in-range default 0). -/
theorem sample_getD_range {l : List Int}
    (h : ∀ x ∈ l, -32768 ≤ x ∧ x ≤ 32767) (n : Nat) :
    -32768 ≤ l.getD n 0 ∧ l.getD n 0 ≤ 32767 := by
  rcases Nat.lt_or_ge n l.length with hn | hn
  · have hg : l.getD n 0 = l[n] := by
      simp [List.getD_eq_getElem?_getD, List.getElem?_eq_getElem hn]
    rw [hg]
    exact h _ (List.getElem_mem hn)
  · have hg : l.getD n 0 = 0 := by
      simp [List.getD_eq_getElem?_getD, List.getElem?_eq_none hn]
    rw [hg]
    exact ⟨by norm_num, by norm_num⟩

/-- Rounding a convex combination of two in-range 16-bit values with
JavaScript `Math.round` (floor of value plus one half) stays in the 16-bit
signed range. -/
theorem round_interp_range (s1 s2 f : ℚ)
    (h1a : -32768 ≤ s1) (h1b : s1 ≤ 32767) (h2a : -32768 ≤ s2) (h2b : s2 ≤ 32767)
    (hf0 : 0 ≤ f) (hf1 : f < 1) :
    -32768 ≤ ⌊s1 + (s2 - s1) * f + 1/2⌋ ∧ ⌊s1 + (s2 - s1) * f + 1/2⌋ ≤ 32767 := by
  have hlow : (-32768 : ℚ) ≤ s1 + (s2 - s1) * f := by
    nlinarith [mul_nonneg hf0 (sub_nonneg.mpr h2a),
      mul_nonneg (sub_nonneg.mpr hf1.le) (sub_nonneg.mpr h1a)]
  have hhigh : s1 + (s2 - s1) * f ≤ (32767 : ℚ) := by
    nlinarith [mul_nonneg hf0 (sub_nonneg.mpr h2b),
      mul_nonneg (sub_nonneg.mpr hf1.le) (sub_nonneg.mpr h1b)]
  constructor
  · apply Int.le_floor.mpr
    have h32 : (((-32768 : ℤ)) : ℚ) = (-32768 : ℚ) := by norm_num
    rw [h32]
    linarith
  · have hup : s1 + (s2 - s1) * f + 1/2 < ((32768 : ℤ) : ℚ) := by
      have h32 : ((32768 : ℤ) : ℚ) = (32768 : ℚ) := by norm_num
      rw [h32]
      linarith
    have := Int.floor_lt.mpr hup
    omega

/-- The linearly interpolated, `Math.round`-ed sample is already within the
16-bit signed range whenever the input samples are: the interpolant lies
between the two neighbouring samples and the fractional weight is in
`[0, 1)`. -/
theorem interpolateAt_range (input : List Int) (inputRate outputRate : Nat)
    (h : ∀ x ∈ input, -32768 ≤ x ∧ x ≤ 32767) (i : Nat) :
    -32768 ≤ interpolateAt input inputRate outputRate i ∧
      interpolateAt input inputRate outputRate i ≤ 32767 := by
  simp only [interpolateAt]
  set q : ℚ := (i : ℚ) * (inputRate : ℚ) / (outputRate : ℚ) with hq
  have hq0 : (0 : ℚ) ≤ q := by
    rw [hq]
    positivity
  have hcast : ((Int.toNat ⌊q⌋ : ℕ) : ℚ) = (⌊q⌋ : ℚ) := by
    have h2 : ((⌊q⌋.toNat : ℕ) : ℤ) = ⌊q⌋ := Int.toNat_of_nonneg (Int.floor_nonneg.mpr hq0)
    exact_mod_cast congrArg (fun z : ℤ => (z : ℚ)) h2
  have hf0 : 0 ≤ q - ((Int.toNat ⌊q⌋ : ℕ) : ℚ) := by
    rw [hcast]
    have := Int.fract_nonneg q
    rwa [Int.fract] at this
  have hf1 : q - ((Int.toNat ⌊q⌋ : ℕ) : ℚ) < 1 := by
    rw [hcast]
    have := Int.fract_lt_one q
    rwa [Int.fract] at this
  obtain ⟨h1a, h1b⟩ := sample_getD_range h (Int.toNat ⌊q⌋)
  obtain ⟨h2a, h2b⟩ :=
    sample_getD_range h (min (Int.toNat ⌊q⌋ + 1) (input.length - 1))
  exact round_interp_range _ _ _ (by exact_mod_cast h1a) (by exact_mod_cast h1b)
    (by exact_mod_cast h2a) (by exact_mod_cast h2b) hf0 hf1

end AudioProofs

/-- Claim C4: for every input frame of 16-bit samples and every pair of valid
(positive) rates, every sample produced by `resample` lies within the 16-bit
signed range [-32768, 32767] — in the v2 implementation, which clamps the
interpolated value before the write, and equally in the v1 implementation,
whose interpolated values are provably already in range (so the written value
coincides with its clamped form there too).  This covers inputs containing
the extremes -32768 and 32767. -/
theorem resample_output_range (input : List Int) (inputRate outputRate : Nat)
    (h : ∀ x ∈ input, -32768 ≤ x ∧ x ≤ 32767)
    (hA : 0 < inputRate) (hB : 0 < outputRate) :
    (∀ s ∈ DiscordAudioProcessor.resampleV1 input inputRate outputRate,
        -32768 ≤ s ∧ s ≤ 32767) ∧
    (∀ s ∈ DiscordAudioProcessor.resample input inputRate outputRate,
        -32768 ≤ s ∧ s ≤ 32767) := by
  constructor
  · intro s hs
    simp only [DiscordAudioProcessor.resampleV1, List.mem_map, List.mem_range] at hs
    obtain ⟨i, _, rfl⟩ := hs
    exact interpolateAt_range input inputRate outputRate h i
  · intro s hs
    simp only [DiscordAudioProcessor.resample] at hs
    split at hs
    · exact h s hs
    · simp only [List.mem_map, List.mem_range] at hs
      obtain ⟨i, _, rfl⟩ := hs
      unfold DiscordAudioProcessor.clamp16
      refine ⟨le_max_left _ _, ?_⟩
      exact max_le (by norm_num) (min_le_left _ _)

/-- Witness for C4: the two-sample frame holding exactly the 16-bit extremes,
upsampled 24kHz→48kHz (the outbound playback path), keeps every output
sample in range under both implementations. -/
theorem resample_output_range_witness :
    (∀ s ∈ DiscordAudioProcessor.resampleV1 [32767, -32768] 24000 48000,
        -32768 ≤ s ∧ s ≤ 32767) ∧
    (∀ s ∈ DiscordAudioProcessor.resample [32767, -32768] 24000 48000,
        -32768 ≤ s ∧ s ≤ 32767) :=
  resample_output_range [32767, -32768] 24000 48000
    (by decide) (by decide) (by decide)

/-- Claim C6: a stereo frame produced by duplicating each mono sample into
both channel slots collapses back to the original mono frame under
`stereoToMono`, which averages each pair with `Math.floor((left+right)/2)`:
`floor((s+s)/2) = s` exactly, sample for sample. -/
theorem stereoToMono_monoToStereo (frame : List Int) :
    DiscordAudioProcessor.stereoToMono (DiscordAudioProcessor.monoToStereo frame) = frame := by
  induction frame with
  | nil => rfl
  | cons x rest ih =>
      simp only [DiscordAudioProcessor.monoToStereo, DiscordAudioProcessor.stereoToMono, ih,
        List.cons.injEq, and_true]
      have h : x + x = 2 * x := by ring
      rw [h]
      exact Int.mul_fdiv_cancel_left x (by norm_num)

/-- Output length of v2 `resample`: the input length under the same-rate
shortcut, otherwise `floor(inputSamples * outputRate / inputRate)`. -/
theorem resample_length (input : List Int) (inputRate outputRate : Nat) :
    (DiscordAudioProcessor.resample input inputRate outputRate).length =
      if inputRate = outputRate then input.length
      else input.length * outputRate / inputRate := by
  simp only [DiscordAudioProcessor.resample]
  split <;> simp

/-- Counterexample to claim C7: a 2-sample frame resampled 48000→16000 and
back yields 0 samples — the round trip loses 2 samples, more than the claimed
±1 tolerance, even though each pass produces exactly
`floor(inputSampleCount * toRate / fromRate)` samples. -/
theorem resample_roundtrip_cex :
    ((([7, 7] : List Int).length : Int) -
        ((DiscordAudioProcessor.resample
            (DiscordAudioProcessor.resample [7, 7] 48000 16000)
            16000 48000).length : Int)).natAbs > 1 := by decide

/-- Claim C7 (amended): resampling from rate A to rate B and back never
increases the sample count, and the deficit is at most `⌈A/B⌉` (computed as
`(A + B - 1) / B`); the claimed ±1 tolerance holds exactly when `B ≥ A`
(upsampling first), since then `⌈A/B⌉ = 1`. -/
theorem resample_roundtrip_length_bound (input : List Int) (A B : Nat)
    (hA : 0 < A) (hB : 0 < B) :
    (DiscordAudioProcessor.resample
        (DiscordAudioProcessor.resample input A B) B A).length ≤ input.length ∧
      input.length ≤
        (DiscordAudioProcessor.resample
            (DiscordAudioProcessor.resample input A B) B A).length
          + (A + B - 1) / B := by
  by_cases hAB : A = B
  · subst hAB
    simp [resample_length]
  · have hBA : B ≠ A := fun hh => hAB hh.symm
    have hlen : (DiscordAudioProcessor.resample
        (DiscordAudioProcessor.resample input A B) B A).length =
          input.length * B / A * A / B := by
      rw [resample_length, if_neg hBA, resample_length, if_neg hAB]
    rw [hlen]
    set n := input.length
    constructor
    · have h1 : n * B / A * A ≤ n * B := Nat.div_mul_le_self (n * B) A
      calc n * B / A * A / B ≤ n * B / B := Nat.div_le_div_right h1
        _ = n := Nat.mul_div_cancel _ hB
    · suffices h : n - (A + B - 1) / B ≤ n * B / A * A / B by
        exact Nat.sub_le_iff_le_add.mp h
      apply (Nat.le_div_iff_mul_le hB).mpr
      have hdm1 : n * B / A * A + n * B % A = n * B := by
        have h := Nat.div_add_mod (n * B) A
        rw [Nat.mul_comm A (n * B / A)] at h
        exact h
      have hmod1 : n * B % A < A := Nat.mod_lt _ hA
      have hdm2 : (A + B - 1) / B * B + (A + B - 1) % B = A + B - 1 := by
        have h := Nat.div_add_mod (A + B - 1) B
        rw [Nat.mul_comm B ((A + B - 1) / B)] at h
        exact h
      have hmod2 : (A + B - 1) % B < B := Nat.mod_lt _ hB
      have hsub : (n - (A + B - 1) / B) * B = n * B - (A + B - 1) / B * B :=
        Nat.sub_mul _ _ _
      generalize hg1 : n * B / A = m at hdm1 ⊢
      generalize hg2 : (A + B - 1) / B = c at hdm2 hsub ⊢
      generalize hg3 : n * B % A = m1 at hdm1 hmod1
      generalize hg4 : (A + B - 1) % B = m2 at hdm2 hmod2
      omega

/-- Witness for the amended C7: a 2-sample frame upsampled 24000→48000 and
back returns to exactly 2 samples, within the allowed deficit
`⌈24000/48000⌉ = 1`. -/
theorem resample_roundtrip_length_bound_witness :
    (DiscordAudioProcessor.resample
        (DiscordAudioProcessor.resample [7, 7] 24000 48000) 48000 24000).length
        ≤ ([7, 7] : List Int).length ∧
      ([7, 7] : List Int).length ≤
        (DiscordAudioProcessor.resample
            (DiscordAudioProcessor.resample [7, 7] 24000 48000) 48000 24000).length
          + (24000 + 48000 - 1) / 48000 :=
  resample_roundtrip_length_bound [7, 7] 24000 48000 (by decide) (by decide)

/-- Counterexample to claim C8: in the teardown trace of `disconnect` (with
both the player and the transport present), the AI-service connection is
closed strictly BEFORE the audio player is stopped, and the playback queue is
cleared strictly BEFORE the capture debounce timers are cancelled — the
opposite of the order the claim states. -/
theorem disconnect_order_cex :
    (VoiceConnectionManager.disconnectTrace true true).indexOf
        VoiceConnectionManager.TeardownAction.closeAIConnection <
      (VoiceConnectionManager.disconnectTrace true true).indexOf
        VoiceConnectionManager.TeardownAction.stopAudioPlayer ∧
    (VoiceConnectionManager.disconnectTrace true true).indexOf
        VoiceConnectionManager.TeardownAction.clearAudioQueue <
      (VoiceConnectionManager.disconnectTrace true true).indexOf
        VoiceConnectionManager.TeardownAction.cancelUserTimers := by decide

/-- Claim C8 (amended): `disconnect` performs its teardown effects in this
order — clear the playback queue (and reset the playing/response flags),
cancel all pending capture debounce timers, clear the capture buffers, close
the AI-service connection, stop the audio player, and destroy the transport
session last.  Each effect occurs exactly once. -/
theorem disconnect_order_amended :
    (VoiceConnectionManager.disconnectTrace true true).indexOf
        VoiceConnectionManager.TeardownAction.clearAudioQueue = 0 ∧
    (VoiceConnectionManager.disconnectTrace true true).indexOf
        VoiceConnectionManager.TeardownAction.cancelUserTimers = 1 ∧
    (VoiceConnectionManager.disconnectTrace true true).indexOf
        VoiceConnectionManager.TeardownAction.clearUserBuffers = 2 ∧
    (VoiceConnectionManager.disconnectTrace true true).indexOf
        VoiceConnectionManager.TeardownAction.closeAIConnection = 3 ∧
    (VoiceConnectionManager.disconnectTrace true true).indexOf
        VoiceConnectionManager.TeardownAction.stopAudioPlayer = 4 ∧
    (VoiceConnectionManager.disconnectTrace true true).indexOf
        VoiceConnectionManager.TeardownAction.destroyTransport = 5 ∧
    (VoiceConnectionManager.disconnectTrace true true).length = 6 := by decide

/-- Claim C9: calling `connect` while the client status is already
`connected` or `connecting` returns `false` and leaves the entire client
state — status, session, model, config, and text buffer — unchanged; the
session-creation path is never entered. -/
theorem connect_busy_noop (m : String) (cfg : Nat) (connectResult : Option Nat)
    (s : GenAILiveClient.ClientState)
    (h : s.status = GenAILiveClient.ClientStatus.connected ∨
      s.status = GenAILiveClient.ClientStatus.connecting) :
    GenAILiveClient.connect m cfg connectResult s = (false, s) := by
  simp only [GenAILiveClient.connect]
  rw [if_pos h]

/-- Witness for C9: a concrete already-connected client state is returned
untouched, with `false`, even though the session attempt would succeed. -/
theorem connect_busy_noop_witness :
    GenAILiveClient.connect "gemini-2.0-flash-exp" 0 (some 1)
        { status := GenAILiveClient.ClientStatus.connected, session := some 7,
          model := some "old-model", config := some 3, textBuffer := "buffered" } =
      (false,
        { status := GenAILiveClient.ClientStatus.connected, session := some 7,
          model := some "old-model", config := some 3, textBuffer := "buffered" }) :=
  connect_busy_noop "gemini-2.0-flash-exp" 0 (some 1) _ (Or.inl rfl)

/-- A left fold of `min` stays at or above any common lower bound of the seed
and the list elements. -/
theorem foldl_min_lower (l : List Int) (a c : Int) (ha : c ≤ a)
    (h : ∀ x ∈ l, c ≤ x) : c ≤ l.foldl (fun m s => Min.min m s) a := by
  induction l generalizing a with
  | nil => simpa using ha
  | cons x rest ih =>
      simp only [List.foldl_cons]
      exact ih _ (le_min ha (h x (by simp))) (fun y hy => h y (by simp [hy]))

/-- A left fold of `max` stays at or below any common upper bound of the seed
and the list elements. -/
theorem foldl_max_upper (l : List Int) (a c : Int) (ha : a ≤ c)
    (h : ∀ x ∈ l, x ≤ c) : l.foldl (fun m s => Max.max m s) a ≤ c := by
  induction l generalizing a with
  | nil => simpa using ha
  | cons x rest ih =>
      simp only [List.foldl_cons]
      exact ih _ (max_le ha (h x (by simp))) (fun y hy => h y (by simp [hy]))

/-- Claim C10: on any non-empty buffer of 16-bit samples (an even byte
length, with each `readInt16LE` read necessarily in [-32768, 32767]),
`validatePCM16` reports `valid = true` and a real (non-NaN) RMS — it can
never flag out-of-range samples on non-empty input; on the empty buffer it
reports `valid = false` with the untouched seeds `min = 32767`,
`max = -32768` and a NaN RMS. -/
theorem validatePCM16_spec :
    (∀ samples : List Int, samples ≠ [] →
        (∀ x ∈ samples, -32768 ≤ x ∧ x ≤ 32767) →
        (DiscordAudioProcessor.validatePCM16 samples).valid = true ∧
          (DiscordAudioProcessor.validatePCM16 samples).rmsSq ≠ none) ∧
      DiscordAudioProcessor.validatePCM16 [] =
        { valid := false, min := 32767, max := -32768, rmsSq := none } := by
  constructor
  · intro samples hne h
    have hmn : (-32768 : Int) ≤ samples.foldl (fun m s => Min.min m s) 32767 :=
      foldl_min_lower samples 32767 (-32768) (by norm_num) (fun x hx => (h x hx).1)
    have hmx : samples.foldl (fun m s => Max.max m s) (-32768) ≤ 32767 :=
      foldl_max_upper samples (-32768) 32767 (by norm_num) (fun x hx => (h x hx).2)
    have hlen : samples.length ≠ 0 := by
      simpa [List.length_eq_zero] using hne
    constructor
    · simp [DiscordAudioProcessor.validatePCM16, hmn, hmx, hlen]
    · simp [DiscordAudioProcessor.validatePCM16, hlen]
  · rfl

/-- Witness for C10: the one-sample buffer `[5]` validates as `true` with a
real RMS. -/
theorem validatePCM16_spec_witness :
    (DiscordAudioProcessor.validatePCM16 [5]).valid = true ∧
      (DiscordAudioProcessor.validatePCM16 [5]).rmsSq ≠ none :=
  validatePCM16_spec.1 [5] (by decide) (by decide)

/-- One non-cancellation step extends the committed output by exactly the
converted forms of the fragments the step delivered: a fragment arrival
appends its converted form; a player-idle transition re-shuffles queued
output into emitted output without adding, dropping, or duplicating bytes. -/
theorem schedStep_observedOutput (s : VoiceConnectionManager.SchedulerState)
    (e : VoiceConnectionManager.SchedulerEvent)
    (he : e ≠ VoiceConnectionManager.SchedulerEvent.stop) :
    VoiceConnectionManager.observedOutput (VoiceConnectionManager.schedStep s e) =
      VoiceConnectionManager.observedOutput s ++
        ((VoiceConnectionManager.arrivals [e]).map
            DiscordAudioProcessor.convertGeminiToDiscord).flatten := by
  cases e with
  | audio d =>
      simp only [VoiceConnectionManager.schedStep, VoiceConnectionManager.onAudio]
      by_cases hc :
          ¬({ s with audioQueue := s.audioQueue ++ [d] } :
              VoiceConnectionManager.SchedulerState).isPlaying ∧
            2 ≤ ({ s with audioQueue := s.audioQueue ++ [d] } :
              VoiceConnectionManager.SchedulerState).audioQueue.length
      · rw [if_pos hc]
        have hne : s.audioQueue ++ [d] ≠ [] := by simp
        simp only [VoiceConnectionManager.playNextAudio] at *
        rw [if_neg (by simp_all)]
        simp [VoiceConnectionManager.observedOutput, VoiceConnectionManager.arrivals]
      · rw [if_neg hc]
        simp [VoiceConnectionManager.observedOutput, VoiceConnectionManager.arrivals]
  | playerIdle =>
      simp only [VoiceConnectionManager.schedStep, VoiceConnectionManager.onPlayerIdle,
        VoiceConnectionManager.playNextAudio]
      by_cases hq : s.audioQueue = []
      · rw [if_pos (by simp [hq])]
        simp [VoiceConnectionManager.observedOutput, VoiceConnectionManager.arrivals, hq]
      · rw [if_neg (by simp [hq])]
        simp [VoiceConnectionManager.observedOutput, VoiceConnectionManager.arrivals]
  | stop => exact absurd rfl he

/-- Running any cancellation-free suffix of events from any state extends the
committed output by exactly the converted arrivals, in order. -/
theorem scheduler_foldl_observedOutput
    (evs : List VoiceConnectionManager.SchedulerEvent)
    (s : VoiceConnectionManager.SchedulerState)
    (h : VoiceConnectionManager.SchedulerEvent.stop ∉ evs) :
    VoiceConnectionManager.observedOutput
        (evs.foldl VoiceConnectionManager.schedStep s) =
      VoiceConnectionManager.observedOutput s ++
        ((VoiceConnectionManager.arrivals evs).map
            DiscordAudioProcessor.convertGeminiToDiscord).flatten := by
  induction evs generalizing s with
  | nil => simp [VoiceConnectionManager.arrivals]
  | cons e rest ih =>
      have h1 : e ≠ VoiceConnectionManager.SchedulerEvent.stop := by
        intro hh
        exact h (by simp [hh])
      have h2 : VoiceConnectionManager.SchedulerEvent.stop ∉ rest := by
        intro hh
        exact h (by simp [hh])
      rw [List.foldl_cons, ih _ h2, schedStep_observedOutput s e h1]
      cases e <;>
        simp [VoiceConnectionManager.arrivals, List.append_assoc]

/-- Claim C5: over any cancellation-free event trace, the playback path emits
the byte-for-byte concatenation of the converted (outbound-path) forms of the
fragments in arrival order: the bytes handed to the player, followed by the
converted forms of the fragments still queued, equal exactly the converted
arrivals concatenated in order — so nothing is duplicated, dropped, or
reordered. -/
theorem playback_fifo (evs : List VoiceConnectionManager.SchedulerEvent)
    (h : VoiceConnectionManager.SchedulerEvent.stop ∉ evs) :
    (VoiceConnectionManager.runScheduler evs).emitted.flatten ++
        ((VoiceConnectionManager.runScheduler evs).audioQueue.map
            DiscordAudioProcessor.convertGeminiToDiscord).flatten =
      ((VoiceConnectionManager.arrivals evs).map
          DiscordAudioProcessor.convertGeminiToDiscord).flatten := by
  have hmain := scheduler_foldl_observedOutput evs VoiceConnectionManager.initScheduler h
  simpa [VoiceConnectionManager.observedOutput,
    VoiceConnectionManager.runScheduler, VoiceConnectionManager.initScheduler] using hmain

/-- Witness for C5: two fragments `[3]` and `[5]` arriving in order are
emitted as the concatenation of their converted forms, in order. -/
theorem playback_fifo_witness :
    (VoiceConnectionManager.runScheduler
          [VoiceConnectionManager.SchedulerEvent.audio [3],
           VoiceConnectionManager.SchedulerEvent.audio [5]]).emitted.flatten ++
        ((VoiceConnectionManager.runScheduler
          [VoiceConnectionManager.SchedulerEvent.audio [3],
           VoiceConnectionManager.SchedulerEvent.audio [5]]).audioQueue.map
            DiscordAudioProcessor.convertGeminiToDiscord).flatten =
      ((VoiceConnectionManager.arrivals
          [VoiceConnectionManager.SchedulerEvent.audio [3],
           VoiceConnectionManager.SchedulerEvent.audio [5]]).map
          DiscordAudioProcessor.convertGeminiToDiscord).flatten :=
  playback_fifo
    [VoiceConnectionManager.SchedulerEvent.audio [3],
     VoiceConnectionManager.SchedulerEvent.audio [5]] (by decide)

/-- Counterexample to claim C1: after a cancellation (`stopPlayback`), two
late-arriving fragments of the cancelled (pre-cancellation) response are
enqueued and then emitted — the source has no generation counter at all, so
nothing marks them stale and they are played rather than dropped. -/
theorem stopPlayback_stale_fragment_cex :
    (VoiceConnectionManager.runScheduler
        [VoiceConnectionManager.SchedulerEvent.stop,
         VoiceConnectionManager.SchedulerEvent.audio [3],
         VoiceConnectionManager.SchedulerEvent.audio [5]]).emitted =
      [[3, 3, 3, 3, 5, 5, 5, 5]] := by
  have h3 : DiscordAudioProcessor.convertGeminiToDiscord [3] = [3, 3, 3, 3] := by
    norm_num [DiscordAudioProcessor.convertGeminiToDiscord, DiscordAudioProcessor.resample,
      DiscordAudioProcessor.interpolateAt, DiscordAudioProcessor.clamp16,
      DiscordAudioProcessor.monoToStereo, List.range_succ]
  have h5 : DiscordAudioProcessor.convertGeminiToDiscord [5] = [5, 5, 5, 5] := by
    norm_num [DiscordAudioProcessor.convertGeminiToDiscord, DiscordAudioProcessor.resample,
      DiscordAudioProcessor.interpolateAt, DiscordAudioProcessor.clamp16,
      DiscordAudioProcessor.monoToStereo, List.range_succ]
  norm_num [VoiceConnectionManager.runScheduler, VoiceConnectionManager.initScheduler,
    VoiceConnectionManager.schedStep, VoiceConnectionManager.stopPlayback,
    VoiceConnectionManager.onAudio, VoiceConnectionManager.playNextAudio, h3, h5]
  simp

/-- Claim C1 (amended): `stopPlayback` clears the playback queue, stops the
active player, and resets the playing/response flags, so nothing further from
the cleared queue is emitted (a following player-idle transition changes
nothing); but there is no generation counter, and fragments arriving after
the cancellation are enqueued normally and may later be emitted. -/
theorem stopPlayback_amended (s : VoiceConnectionManager.SchedulerState) :
    (VoiceConnectionManager.stopPlayback s).audioQueue = [] ∧
    (VoiceConnectionManager.stopPlayback s).isPlaying = false ∧
    (VoiceConnectionManager.stopPlayback s).responseInProgress = false ∧
    (VoiceConnectionManager.stopPlayback s).emitted = s.emitted ∧
    VoiceConnectionManager.onPlayerIdle (VoiceConnectionManager.stopPlayback s) =
      VoiceConnectionManager.stopPlayback s := by
  refine ⟨rfl, rfl, rfl, rfl, ?_⟩
  simp [VoiceConnectionManager.onPlayerIdle, VoiceConnectionManager.playNextAudio,
    VoiceConnectionManager.stopPlayback]

/-- Counterexample to claim C2: a tool call whose single `functionCall` is
named anything other than `send_chat_message` (here `start_quiz`, with a
perfectly good correlation id) produces NO response at all — even with every
send succeeding — so not every tool call gets a correlation-id-matched
response. -/
theorem onToolCall_unanswered_cex :
    ({ id := "call-1", name := "start_quiz", message := "begin" } :
        VoiceConnectionManager.FunctionCall) ∈
      ({ functionCalls := [{ id := "call-1", name := "start_quiz", message := "begin" }] } :
        VoiceConnectionManager.ToolCallMsg).functionCalls ∧
    VoiceConnectionManager.onToolCall true true
        { functionCalls := [{ id := "call-1", name := "start_quiz", message := "begin" }] } =
      [] := by decide

/-- Claim C2 (amended): when the response channel works, the dispatcher
answers exactly the function calls named `send_chat_message` that carry a
truthy id and a non-empty `args.message`: each such call yields exactly one
response carrying the original call's id, marked success iff the Discord
channel send succeeded; every other function call (other tool names, missing
id, or missing/empty message) is skipped or dropped with no response. -/
theorem onToolCall_amended (channelSendOk : Bool)
    (tc : VoiceConnectionManager.ToolCallMsg) :
    VoiceConnectionManager.onToolCall channelSendOk true tc =
      tc.functionCalls.flatMap (fun fc =>
        if fc.name = "send_chat_message" ∧ fc.id ≠ "" ∧ fc.message ≠ "" then
          [{ id := fc.id, name := fc.name, success := channelSendOk }]
        else []) := by
  rcases tc with ⟨fcs⟩
  simp only [VoiceConnectionManager.onToolCall]
  refine congrArg _ (funext fun fc => ?_)
  by_cases h1 : fc.name = "send_chat_message"
  · by_cases h2 : fc.id = ""
    · simp [h1, h2, VoiceConnectionManager.handleSendChatMessage]
    · by_cases h3 : fc.message = ""
      · simp [h1, h2, h3, VoiceConnectionManager.handleSendChatMessage]
      · cases channelSendOk <;>
          simp [h1, h2, h3, VoiceConnectionManager.handleSendChatMessage]
  · simp [h1]

/-- Claim C3: for a finalized non-empty capture buffer whose accumulated
sample count matches its chunks (two flat samples per counted stereo frame),
the gates run in order — if the duration (from `totalSamples` at 48kHz) is
under 500ms the utterance is discarded; otherwise if the RMS of the
concatenated buffer is under 400 (mean square under 400², equivalently) it
is discarded; and only if both gates pass is exactly the converted utterance
forwarded to the AI-service boundary. -/
theorem processFinalAudio_gates (buf : VoiceConnectionManager.UserAudioBuffer)
    (hne : buf.chunks ≠ [])
    (hacct : 2 * buf.totalSamples = buf.chunks.flatten.length) :
    (VoiceConnectionManager.durationMs buf < VoiceConnectionManager.MIN_AUDIO_DURATION_MS →
        VoiceConnectionManager.processFinalAudio buf = none) ∧
    (¬ VoiceConnectionManager.durationMs buf < VoiceConnectionManager.MIN_AUDIO_DURATION_MS →
        VoiceConnectionManager.calculateRMSSq buf.chunks.flatten <
            VoiceConnectionManager.MIN_RMS_THRESHOLD ^ 2 →
        VoiceConnectionManager.processFinalAudio buf = none) ∧
    (¬ VoiceConnectionManager.durationMs buf < VoiceConnectionManager.MIN_AUDIO_DURATION_MS →
        ¬ VoiceConnectionManager.calculateRMSSq buf.chunks.flatten <
            VoiceConnectionManager.MIN_RMS_THRESHOLD ^ 2 →
        VoiceConnectionManager.processFinalAudio buf =
          some (DiscordAudioProcessor.convertDiscordToGemini buf.chunks.flatten)) := by
  refine ⟨fun h1 => ?_, fun h1 h2 => ?_, fun h1 h2 => ?_⟩
  · simp [VoiceConnectionManager.processFinalAudio, hne, h1]
  · simp [VoiceConnectionManager.processFinalAudio, hne, h1, h2]
  · simp [VoiceConnectionManager.processFinalAudio, hne, h1, h2]

/-- Witness for C3: a tiny concrete buffer (one chunk of one stereo frame,
one counted frame) is processed: its 1000/48ms duration trips the first gate
and the utterance is discarded. -/
theorem processFinalAudio_gates_witness :
    ((VoiceConnectionManager.durationMs { chunks := [[1000, 1000]], totalSamples := 1 } <
          VoiceConnectionManager.MIN_AUDIO_DURATION_MS →
        VoiceConnectionManager.processFinalAudio { chunks := [[1000, 1000]], totalSamples := 1 } =
          none) ∧
      (¬ VoiceConnectionManager.durationMs { chunks := [[1000, 1000]], totalSamples := 1 } <
            VoiceConnectionManager.MIN_AUDIO_DURATION_MS →
          VoiceConnectionManager.calculateRMSSq
              ([[1000, 1000]] : List (List Int)).flatten <
              VoiceConnectionManager.MIN_RMS_THRESHOLD ^ 2 →
          VoiceConnectionManager.processFinalAudio { chunks := [[1000, 1000]], totalSamples := 1 } =
            none) ∧
      (¬ VoiceConnectionManager.durationMs { chunks := [[1000, 1000]], totalSamples := 1 } <
            VoiceConnectionManager.MIN_AUDIO_DURATION_MS →
          ¬ VoiceConnectionManager.calculateRMSSq
              ([[1000, 1000]] : List (List Int)).flatten <
              VoiceConnectionManager.MIN_RMS_THRESHOLD ^ 2 →
          VoiceConnectionManager.processFinalAudio { chunks := [[1000, 1000]], totalSamples := 1 } =
            some (DiscordAudioProcessor.convertDiscordToGemini
              ([[1000, 1000]] : List (List Int)).flatten))) :=
  processFinalAudio_gates { chunks := [[1000, 1000]], totalSamples := 1 }
    (by decide) (by decide)
